import Mathlib

/-
Verification development for the Tilda-to-static-mirror migration pipeline.

The embedding models, from the Python sources:
  - src/processors/content_processor.py: _generate_local_path, _process_images_in_page,
    _update_forms_in_page, _parse_and_replace_css_urls, extract_new_urls_from_css;
  - src/main.py: _download_assets_recursively;
  - src/extractors/tilda_extractor.py: the frontier loop of extract_pages.

External libraries are modelled as follows: urllib.parse (urlparse, urlunparse, urljoin)
is embedded faithfully for URLs without params segments; cssutils url extraction, the
HTML parser (BeautifulSoup) and the HTTP layer (requests / selenium) are supplied as
oracle parameters; pathlib is modelled by PyPath, including the fact that pathlib path
objects have no lstrip method, so Path(...).lstrip('/') raises AttributeError.

Core Lean String primitives (startsWith, splitOn, toLower, ...) do not reduce inside the
kernel, so the model re-implements the needed Python string operations over the
character list of the string.
-/

namespace TildaMigration

/-- Characters of a string. -/
def chars (s : String) : List Char := s.data

/-- Build a string back from its characters. -/
def ofChars (l : List Char) : String := String.mk l

/-- Model of Python str.startswith. -/
def pyStartswith (s t : String) : Bool := List.isPrefixOf t.data s.data

/-- Model of Python str.endswith. -/
def pyEndswith (s t : String) : Bool := List.isPrefixOf t.data.reverse s.data.reverse

/-- Containment of a character sequence in another, front-to-back scan. -/
def seqContains (pat : List Char) : List Char → Bool
  | [] => pat.isEmpty
  | c :: cs => List.isPrefixOf pat (c :: cs) || seqContains pat cs

/-- Model of the Python expression sub in s on strings. -/
def pyInStr (sub s : String) : Bool := seqContains sub.data s.data

/-- Model of Python str.strip(chars): drop the given characters from both ends. -/
def pyStrip (cutset : List Char) (s : String) : String :=
  ofChars (((s.data.dropWhile (fun c => cutset.contains c)).reverse.dropWhile
    (fun c => cutset.contains c)).reverse)

/-- Cutset of the strip call in the css url handling: quote, double quote, space. -/
def quoteSpace : List Char := [Char.ofNat 39, Char.ofNat 34, ' ']

/-- Model of Python str.split(sep) for a one-character separator. -/
def splitChar (sep : Char) : List Char → List (List Char)
  | [] => [[]]
  | c :: cs =>
    if c = sep then [] :: splitChar sep cs
    else
      match splitChar sep cs with
      | [] => [[c]]
      | g :: gs => (c :: g) :: gs

/-- String version of splitChar. -/
def pySplit (sep : Char) (s : String) : List String := (splitChar sep s.data).map ofChars

/-- Model of Python sep.join(parts). -/
def pyJoin (sep : String) : List String → String
  | [] => ""
  | [x] => x
  | x :: xs => x ++ sep ++ pyJoin sep xs

/-- Parse result of urllib.parse.urlparse, restricted to the five fields the program
reads (the params field is not modelled; none of the urls the program builds carry a
params segment). -/
structure UrlParts where
  scheme : String
  netloc : String
  path : String
  query : String
  fragment : String
  deriving DecidableEq, Repr

/-- Characters urllib allows inside a scheme. -/
def schemeChar (c : Char) : Bool := c.isAlpha || c.isDigit || c = '+' || c = '-' || c = '.'

/-- Split at the first occurrence of a delimiter; when found, the delimiter is dropped
and the remainder is returned. -/
def breakAtFirst (d : Char) : List Char → List Char × Option (List Char)
  | [] => ([], none)
  | c :: cs =>
    if c = d then ([], some cs)
    else
      match breakAtFirst d cs with
      | (a, r) => (c :: a, r)

/-- Scheme detection of urllib.parse.urlsplit: a leading ascii letter followed by scheme
characters up to a colon; the detected scheme is lowercased. -/
def splitScheme (s : List Char) : String × List Char :=
  match breakAtFirst ':' s with
  | (pre, some rest) =>
    match pre with
    | [] => ("", s)
    | c :: cs =>
      if c.isAlpha && (c :: cs).all schemeChar then
        (ofChars ((c :: cs).map Char.toLower), rest)
      else ("", s)
  | (_, none) => ("", s)

/-- Characters ending the netloc part. -/
def netlocEnd (c : Char) : Bool := c = '/' || c = '?' || c = '#'

/-- Turn an optional remainder into a string. -/
def optChars : Option (List Char) → String
  | none => ""
  | some l => ofChars l

/-- Model of urllib.parse.urlparse (Python 3.11 urlsplit order: scheme, then netloc after
a leading double slash, then fragment at the first hash, then query at the first question
mark). -/
def urlparse (url : String) : UrlParts :=
  let (scheme, rest) := splitScheme url.data
  let (netloc, rest) :=
    if List.isPrefixOf ['/', '/'] rest then
      let r := rest.drop 2
      (ofChars (r.takeWhile (fun c => !netlocEnd c)), r.dropWhile (fun c => !netlocEnd c))
    else ("", rest)
  let (rest, fragment) := breakAtFirst '#' rest
  let (path, query) := breakAtFirst '?' rest
  ⟨scheme, netloc, ofChars path, optChars query, optChars fragment⟩

/-- Model of urllib.parse.urlunparse with an empty params field. -/
def urlunparse (u : UrlParts) : String :=
  let url := u.path
  let url :=
    if u.netloc != "" || pyStartswith url "//" then
      "//" ++ u.netloc ++ (if url != "" && !(pyStartswith url "/") then "/" ++ url else url)
    else url
  let url := if u.scheme != "" then u.scheme ++ ":" ++ url else url
  let url := if u.query != "" then url ++ "?" ++ u.query else url
  if u.fragment != "" then url ++ "#" ++ u.fragment else url

/-- Schemes urllib resolves relative references against (uses_relative, Python 3.11). -/
def usesRelative : List String :=
  ["", "ftp", "http", "gopher", "nntp", "imap", "wais", "file", "https", "shttp", "mms",
   "prospero", "rtsp", "rtsps", "rtspu", "sftp", "svn", "svn+ssh", "ws", "wss"]

/-- Schemes that carry a network location (uses_netloc, Python 3.11). -/
def usesNetloc : List String :=
  ["", "ftp", "http", "gopher", "nntp", "telnet", "imap", "wais", "file", "mms", "https",
   "shttp", "snews", "prospero", "rtsp", "rtsps", "rtspu", "rsync", "svn", "svn+ssh",
   "sftp", "nfs", "git", "git+ssh", "ws", "wss"]

/-- Middle-slice filtering step of urljoin: segments[1:-1] = filter(None, segments[1:-1]). -/
def filterMiddle : List String → List String
  | [] => []
  | [a] => [a]
  | a :: rest =>
    match rest.getLast? with
    | none => [a]
    | some z => a :: (rest.dropLast.filter (fun s => s != "")) ++ [z]

/-- Dot-segment resolution loop of urljoin (a pop on the empty accumulator is ignored,
like the IndexError pass in urllib). -/
def resolveSegs : List String → List String → List String
  | acc, [] => acc
  | acc, seg :: rest =>
    if seg = ".." then resolveSegs acc.dropLast rest
    else if seg = "." then resolveSegs acc rest
    else resolveSegs (acc ++ [seg]) rest

/-- Model of urllib.parse.urljoin (Python 3.11), params ignored. -/
def urljoin (base url : String) : String :=
  if base = "" then url
  else if url = "" then base
  else
    let b := urlparse base
    let u := urlparse url
    let scheme := if u.scheme = "" then b.scheme else u.scheme
    if scheme != b.scheme || !(usesRelative.contains scheme) then url
    else if usesNetloc.contains scheme && u.netloc != "" then
      urlunparse ⟨scheme, u.netloc, u.path, u.query, u.fragment⟩
    else
      let netloc := if usesNetloc.contains scheme then b.netloc else u.netloc
      if u.path = "" then
        urlunparse ⟨scheme, netloc, b.path,
          (if u.query = "" then b.query else u.query), u.fragment⟩
      else
        let baseParts := pySplit '/' b.path
        let baseParts := if baseParts.getLast? != some "" then baseParts.dropLast else baseParts
        let segments :=
          if pyStartswith u.path "/" then pySplit '/' u.path
          else filterMiddle (baseParts ++ pySplit '/' u.path)
        let resolved := resolveSegs [] segments
        let resolved :=
          if segments.getLast? == some "." || segments.getLast? == some ".." then
            resolved ++ [""]
          else resolved
        let p := pyJoin "/" resolved
        let p := if p = "" then "/" else p
        urlunparse ⟨scheme, netloc, p, u.query, u.fragment⟩

/-- Python exception classes that escape the modelled code. -/
inductive PyErr where
  | attributeError
  deriving DecidableEq, Repr

/-- Processing configuration slice read by _generate_local_path: config.base_url,
config.get("assets_dir", "assets") and config.output_dir. -/
structure Cfg where
  base_url : String
  assets_dir : String
  output_dir : String
  deriving DecidableEq, Repr

/-- Model of a pathlib path as its rendered string. -/
structure PyPath where
  rep : String
  deriving DecidableEq, Repr

/-- Model of pathlib division on the shapes the program builds (relative, slash separated
components): an absolute right operand replaces the left one, an empty component is
dropped. -/
def PyPath.div (a : PyPath) (b : String) : PyPath :=
  if b = "" then a
  else if pyStartswith b "/" then ⟨b⟩
  else if a.rep = "" then ⟨b⟩
  else ⟨a.rep ++ "/" ++ b⟩

/-- Python pathlib path objects have no lstrip method, so both
Path(...).lstrip('/') calls in _generate_local_path raise AttributeError. -/
def PyPath.lstrip (_p : PyPath) (_cutset : String) : Except PyErr PyPath :=
  Except.error PyErr.attributeError

/-- Last meaningful component of a pathlib path (PurePath.name). -/
def pathName (s : String) : String :=
  match ((splitChar '/' s.data).filter (fun l => l ≠ [])).getLast? with
  | none => ""
  | some l => ofChars l

/-- Model of PurePath.suffix: the part of the name from its last dot, when that dot is
neither leading nor trailing. -/
def pathSuffix (s : String) : String :=
  match breakAtFirst '.' (pathName s).data.reverse with
  | (extRev, some stemRev) =>
    if stemRev ≠ [] && extRev ≠ [] then ofChars ('.' :: extRev.reverse) else ""
  | (_, none) => ""

/-- Model of ContentProcessor._generate_local_path (content_processor.py lines 342-382).
The md5hex parameter stands for hashlib.md5 hexdigest, read only on the traversal
fallback branch. The model is faithful to the source, including the two
Path(...).lstrip('/') calls: pathlib paths have no lstrip method, so for every non-empty
url the function raises AttributeError before its remaining lines can run. -/
def generate_local_path (md5hex : String → String) (cfg : Cfg) (url : String) :
    Except PyErr String :=
  if url = "" then Except.ok ""
  else
    let parsed := urlparse url
    let clean_url := urlunparse ⟨parsed.scheme, parsed.netloc, parsed.path, "", ""⟩
    let rel : Except PyErr PyPath :=
      if pyStartswith clean_url cfg.base_url then
        PyPath.lstrip ⟨ofChars (clean_url.data.drop cfg.base_url.data.length)⟩ "/"
      else
        let domain := parsed.netloc
        (PyPath.lstrip ⟨parsed.path⟩ "/").map (fun path_part =>
          (PyPath.div (PyPath.div ⟨"external"⟩ domain) path_part.rep))
    rel.bind (fun relative_path =>
      let final_path := PyPath.div ⟨cfg.assets_dir⟩ relative_path.rep
      let final_path :=
        if pyInStr ".." relative_path.rep then
          PyPath.div ⟨cfg.assets_dir⟩ (md5hex clean_url ++ pathSuffix clean_url)
        else final_path
      Except.ok final_path.rep)

/-- Value stored in ContentProcessor.asset_mapping for one url. -/
structure MapEntry where
  local_path : String
  kind : String
  deriving DecidableEq, Repr

/-- Python dict assignment d[k] = v on an insertion-ordered association list. -/
def dictSet {α : Type} (m : List (String × α)) (k : String) (v : α) : List (String × α) :=
  if (m.find? (fun p => p.1 == k)).isSome then
    m.map (fun p => if p.1 == k then (k, v) else p)
  else m ++ [(k, v)]

/-- Python dict lookup d.get(k) on an association list. -/
def dictGet {α : Type} (m : List (String × α)) (k : String) : Option α :=
  (m.find? (fun p => p.1 == k)).map Prod.snd

/-- Model of ContentProcessor._process_images_in_page (lines 85-103). The soup is the
list of img src attributes (none models a missing src; the empty string is Python-falsy
and also skipped). The stylesheet-link and script variants (lines 105-143) have the same
structure with href / src and kind "css" / "js". Returns the rewritten attribute list
and the updated asset mapping, or the exception the call propagates: there is no data:
check on this path, and every src reaches _generate_local_path. -/
def process_images_in_page (md5hex : String → String) (cfg : Cfg) :
    List (Option String) → List (String × MapEntry) →
    Except PyErr (List (Option String) × List (String × MapEntry))
  | [], m => Except.ok ([], m)
  | none :: rest, m =>
    (process_images_in_page md5hex cfg rest m).map (fun r => (none :: r.1, r.2))
  | some src :: rest, m =>
    if src = "" then
      (process_images_in_page md5hex cfg rest m).map (fun r => (some src :: r.1, r.2))
    else
      let parsed := urlparse src
      (generate_local_path md5hex cfg src).bind (fun local_path_disk =>
        let local_path_html :=
          if parsed.query != "" then local_path_disk ++ "?" ++ parsed.query
          else local_path_disk
        (process_images_in_page md5hex cfg rest
            (dictSet m src ⟨local_path_disk, "image"⟩)).map
          (fun r => (some local_path_html :: r.1, r.2)))

/-- Attributes of one form element. -/
structure FormTag where
  action : Option String
  method : Option String
  other : List (String × String)
  deriving DecidableEq, Repr

/-- Model of ContentProcessor._update_forms_in_page (lines 145-156): a Python-falsy
handler (None or the empty string) skips the whole pass with a warning; otherwise every
form gets the handler as action and "post" as method. -/
def update_forms_in_page (form_handler_url : Option String) (forms : List FormTag) :
    List FormTag :=
  match form_handler_url with
  | none => forms
  | some h =>
    if h = "" then forms
    else forms.map (fun f => { f with action := some h, method := some "post" })

/-- Strip call applied to every url cssutils reports. -/
def cssStrip (s : String) : String := pyStrip quoteSpace s

/-- Filtering loop of extract_new_urls_from_css over the urls cssutils found: strip
quotes and spaces, skip empty and data: values, resolve against the stylesheet url, skip
resolutions equal to the base. -/
def extractCssLoop (base_url : String) : List String → List String
  | [] => []
  | u :: rest =>
    let s := cssStrip u
    if s == "" || pyStartswith s "data:" then extractCssLoop base_url rest
    else
      let a := urljoin base_url s
      if a = base_url then extractCssLoop base_url rest
      else a :: extractCssLoop base_url rest

/-- Model of ContentProcessor.extract_new_urls_from_css (lines 251-270); cssUrls stands
for cssutils.parseString plus cssutils.getUrls over the given text. -/
def extract_new_urls_from_css (cssUrls : String → List String) (css_text base_url : String) :
    List String :=
  extractCssLoop base_url (cssUrls css_text)

/-- Model of Python str.replace for all occurrences, leftmost first, non-overlapping;
the fuel is the length of the scanned text. -/
def replChars (pat new : List Char) : Nat → List Char → List Char
  | 0, l => l
  | _ + 1, [] => []
  | fuel + 1, c :: cs =>
    if List.isPrefixOf pat (c :: cs) then
      new ++ replChars pat new fuel ((c :: cs).drop pat.length)
    else c :: replChars pat new fuel cs

/-- String version of replChars; the program only calls it with the non-empty stripped
urls it collected. -/
def pyReplace (s old new : String) : String :=
  if old = "" then s else ofChars (replChars old.data new.data s.data.length s.data)

/-- Loop of _parse_and_replace_css_urls over the urls cssutils found: builds the
urls_to_replace dict and updates the asset mapping; a raise from _generate_local_path
aborts the loop, and the triple also carries that exception. -/
def cssReplaceLoop (md5hex : String → String) (cfg : Cfg) (base_url : String) :
    List String → List (String × String) → List (String × MapEntry) →
    List (String × String) × List (String × MapEntry) × Option PyErr
  | [], repl, m => (repl, m, none)
  | u :: rest, repl, m =>
    let s := cssStrip u
    if s == "" || pyStartswith s "data:" then cssReplaceLoop md5hex cfg base_url rest repl m
    else
      let a := urljoin base_url s
      if a = base_url then cssReplaceLoop md5hex cfg base_url rest repl m
      else
        match generate_local_path md5hex cfg a with
        | Except.error e => (repl, m, some e)
        | Except.ok lp =>
          cssReplaceLoop md5hex cfg base_url rest (dictSet repl s lp)
            (dictSet m a ⟨lp, "asset"⟩)

/-- Model of ContentProcessor._parse_and_replace_css_urls (lines 215-249). The whole
body sits in a try/except that returns the original text on any exception; asset-mapping
writes made before a raise persist on the processor object, so the mapping of the loop
state at the raise is kept. On a clean pass every collected url is replaced in the text
by plain substring replacement. -/
def parse_and_replace_css_urls (md5hex : String → String) (cfg : Cfg)
    (cssUrls : String → List String) (css_text base_url : String)
    (m : List (String × MapEntry)) : String × List (String × MapEntry) :=
  match cssReplaceLoop md5hex cfg base_url (cssUrls css_text) [] m with
  | (_, m2, some _) => (css_text, m2)
  | (repl, m2, none) => (repl.foldl (fun acc p => pyReplace acc p.1 p.2) css_text, m2)

/-- Response of one requests.get call. -/
structure HttpResponse where
  status : Nat
  content_type : String
  body : String
  deriving DecidableEq, Repr

/-- Outcome of one requests.get call: a response, or a requests.RequestException raised
as a timeout or connection failure. raise_for_status turns any status of 400 and above
into the same caught exception class. -/
inductive FetchOutcome where
  | resp (r : HttpResponse)
  | timeout
  | connError
  deriving DecidableEq, Repr

/-- State of _download_assets_recursively: the worklist, the processed guard set, the
assets_to_download mapping (url to local_path), the files written so far, and the trace
of requests.get calls issued. -/
structure DlState where
  download_queue : List String
  processed_urls : List String
  assets_to_download : List (String × String)
  written : List (String × String)
  attempts : List String
  deriving DecidableEq, Repr

/-- Final state of the download loop, plus the exception escaping it when one does
(only requests.RequestException is caught inside the loop). -/
structure DlOut where
  state : DlState
  err : Option PyErr
  deriving DecidableEq, Repr

/-- Python set.add on a membership-guarded list. -/
def setAdd (q : List String) (u : String) : List String :=
  if q.contains u then q else q ++ [u]

/-- Registration loop over the urls found in a fetched stylesheet (main.py lines 78-82):
enqueue every url not yet processed, and map every url not yet in assets_to_download,
which calls _generate_local_path and therefore can raise. -/
def registerNewUrls (md5hex : String → String) (cfg : Cfg) :
    List String → DlState → DlState × Option PyErr
  | [], st => (st, none)
  | u :: rest, st =>
    if st.processed_urls.contains u then registerNewUrls md5hex cfg rest st
    else
      let st1 := { st with download_queue := setAdd st.download_queue u }
      if (dictGet st1.assets_to_download u).isSome then registerNewUrls md5hex cfg rest st1
      else
        match generate_local_path md5hex cfg u with
        | Except.error e => (st1, some e)
        | Except.ok lp =>
          registerNewUrls md5hex cfg rest
            { st1 with assets_to_download := st1.assets_to_download ++ [(u, lp)] }

/-- Fetch part of one iteration of _download_assets_recursively (main.py lines 64-86),
run after the local path of the url is known: record the requests.get call, catch every
requests.RequestException (timeout, connection failure, raise_for_status on any status
of 400 and above) and continue, otherwise write the raw body and, on stylesheet content,
register the urls extracted from it. Returns the state the loop continues with, or the
final output when an uncaught exception aborts the loop. -/
def dlFetchPart (md5hex : String → String) (cfg : Cfg) (fetch : String → FetchOutcome)
    (cssUrls : String → List String) (u local_path : String) (st : DlState) :
    DlState ⊕ DlOut :=
  let st := { st with attempts := st.attempts ++ [u] }
  match fetch u with
  | FetchOutcome.timeout => Sum.inl st
  | FetchOutcome.connError => Sum.inl st
  | FetchOutcome.resp r =>
    if 400 ≤ r.status then Sum.inl st
    else
      let st := { st with written := st.written ++ [(local_path, r.body)] }
      if pyInStr "css" r.content_type || pyEndswith local_path ".css" then
        match registerNewUrls md5hex cfg (extract_new_urls_from_css cssUrls r.body u) st with
        | (st2, some e) => Sum.inr ⟨st2, some e⟩
        | (st2, none) => Sum.inl st2
      else Sum.inl st

/-- One iteration of _download_assets_recursively on a popped url (main.py lines 56-86):
skip urls already processed, mark the url processed, take its stored local path or map
it (which raises), then run the fetch part. -/
def dlIter (md5hex : String → String) (cfg : Cfg) (fetch : String → FetchOutcome)
    (cssUrls : String → List String) (u : String) (st : DlState) : DlState ⊕ DlOut :=
  if st.processed_urls.contains u then Sum.inl st
  else
    let st := { st with processed_urls := st.processed_urls ++ [u] }
    match (match dictGet st.assets_to_download u with
           | some lp => Except.ok lp
           | none => generate_local_path md5hex cfg u) with
    | Except.error e => Sum.inr ⟨st, some e⟩
    | Except.ok local_path => dlFetchPart md5hex cfg fetch cssUrls u local_path st

/-- Model of _download_assets_recursively (main.py lines 49-86). Python pops an
arbitrary element of the queue set; the model pops the head of the worklist. fetch
models requests.get and cssUrls models cssutils over the fetched body. -/
def download_assets_recursively (md5hex : String → String) (cfg : Cfg)
    (fetch : String → FetchOutcome) (cssUrls : String → List String) :
    Nat → DlState → DlOut
  | 0, st => ⟨st, none⟩
  | fuel + 1, st =>
    match st.download_queue with
    | [] => ⟨st, none⟩
    | u :: q =>
      match dlIter md5hex cfg fetch cssUrls u { st with download_queue := q } with
      | Sum.inl st2 => download_assets_recursively md5hex cfg fetch cssUrls fuel st2
      | Sum.inr out => out

/-- State of the frontier loop of TildaExtractor.extract_pages: the FIFO to_visit list,
the visited set, the collected page records, and the trace of every url the link scan
appended to to_visit. -/
structure CrawlState where
  to_visit : List String
  visited : List String
  pages : List (String × String)
  enqueued : List String
  deriving DecidableEq, Repr

/-- Link scan of TildaExtractor.extract_pages (lines 126-137): each anchor href is
skipped when it carries a mailto:, tel: or fragment start, resolved against the base
url, and appended when it passes the string test abs_url.startswith(base_url) and sits
in neither visited nor to_visit. -/
def scanStep (base_url : String) (st : CrawlState) (href : String) : CrawlState :=
  if pyStartswith href "mailto:" || pyStartswith href "tel:" || pyStartswith href "#" then st
  else
    let abs_url := urljoin base_url href
    if pyStartswith abs_url base_url && !st.visited.contains abs_url
        && !st.to_visit.contains abs_url then
      { st with to_visit := st.to_visit ++ [abs_url], enqueued := st.enqueued ++ [abs_url] }
    else st

/-- Fold of the anchor handling over all hrefs of a page. -/
def scanLinks (base_url : String) (st : CrawlState) (hrefs : List String) : CrawlState :=
  hrefs.foldl (scanStep base_url) st

/-- Model of the frontier loop of TildaExtractor.extract_pages (tilda_extractor.py lines
101-153). fetch models the selenium page load, none being the per-url exception the
try/except logs before continuing; links models the BeautifulSoup anchor scan. The
method as written reads attributes its class never initialises (base_url, driver,
output_path); the model takes them as parameters and embeds the loop logic itself. -/
def extract_pages (fetch : String → Option String) (links : String → List String)
    (base_url : String) : Nat → CrawlState → CrawlState
  | 0, st => st
  | fuel + 1, st =>
    match st.to_visit with
    | [] => st
    | u :: rest =>
      let st := { st with to_visit := rest }
      if st.visited.contains u then extract_pages fetch links base_url fuel st
      else
        match fetch u with
        | none => extract_pages fetch links base_url fuel st
        | some html =>
          let st := { st with pages := st.pages ++ [(u, html)], visited := st.visited ++ [u] }
          extract_pages fetch links base_url fuel (scanLinks base_url st (links html))

/-- Hash placeholder for the md5 parameter; every theorem about the path mapper either
quantifies over the hash function or reaches no hash-dependent branch. -/
def idHash : String → String := fun s => s

/-- Concrete processing configuration used by the scenario runs. -/
def cfgEx : Cfg := ⟨"https://site.example", "assets", "dist"⟩

/-- Stylesheet url S of the recursive-discovery scenario. -/
def urlS : String := "https://site.example/style.css"

/-- Font url F that S references as url(font.woff2). -/
def urlF : String := "https://site.example/font.woff2"

/-- Fetched body of S: a stylesheet text containing the font.woff2 reference. -/
def cssBodyEx : String := "@font-face src: url(font.woff2);"

/-- HTTP oracle of the recursive-discovery scenario: S serves the stylesheet body. -/
def c3fetch : String → FetchOutcome := fun u =>
  if u = urlS then FetchOutcome.resp ⟨200, "text/css", cssBodyEx⟩ else FetchOutcome.timeout

/-- cssutils oracle of the recursive-discovery scenario: the stylesheet body yields the
single reference font.woff2. -/
def c3css : String → List String := fun t => if t = cssBodyEx then ["font.woff2"] else []

/-- Initial state of the recursive-discovery scenario: the mapping the claim presupposes,
holding S with its local path. -/
def c3init : DlState := ⟨[urlS], [], [(urlS, "assets/style.css")], [], []⟩

/-- Run of the download loop on the recursive-discovery scenario. -/
def c3run : DlOut := download_assets_recursively idHash cfgEx c3fetch c3css 5 c3init

/-- Asset url whose fetch times out in the retry scenario. -/
def urlA : String := "https://site.example/a.png"

/-- Asset url whose fetch succeeds in the retry scenario. -/
def urlB : String := "https://site.example/b.png"

/-- HTTP oracle of the retry scenario: A always times out (a transient failure), B
serves an image. -/
def c6fetch : String → FetchOutcome := fun u =>
  if u = urlB then FetchOutcome.resp ⟨200, "image/png", "PNGDATA"⟩ else FetchOutcome.timeout

/-- Initial state of the retry scenario: both assets already mapped. -/
def c6init : DlState := ⟨[urlA, urlB], [], [(urlA, "assets/a.png"), (urlB, "assets/b.png")], [], []⟩

/-- Run of the download loop on the retry scenario. -/
def c6run : DlOut := download_assets_recursively idHash cfgEx c6fetch (fun _ => []) 5 c6init

/-- Base url of the crawl scenario. -/
def baseEx : String := "https://site.example"

/-- Different-host url whose string nevertheless extends the base url. -/
def sneakyUrl : String := "https://site.examplesneaky.com/x"

/-- Cross-origin url of the same-origin boundary example. -/
def otherUrl : String := "https://other.example/x"

/-- Page body of the crawl scenario. -/
def c4html : String := "page-with-two-anchors"

/-- Page-load oracle of the crawl scenario: only the base url loads. -/
def c4fetch : String → Option String := fun u => if u = baseEx then some c4html else none

/-- Anchor oracle of the crawl scenario: the page carries anchors to the cross-origin
url and to the different-host url extending the base string. -/
def c4links : String → List String := fun h => if h = c4html then [otherUrl, sneakyUrl] else []

/-- Run of the frontier loop on the crawl scenario. -/
def c4run : CrawlState := extract_pages c4fetch c4links baseEx 5 ⟨[baseEx], [], [], []⟩

/-- cssutils oracle of the data-uri scenario: one data: reference and one font reference. -/
def c9cssOracle : String → List String := fun _ => ["data:ignored", "font.woff2"]

/-- cssutils oracle of the substring-replacement scenario. -/
def c10oracle : String → List String := fun _ => ["font.woff2"]

/-- Stylesheet text of the substring-replacement scenario. -/
def c10css : String := "body src: url(font.woff2);"

/-- Helper: every non-empty url drives _generate_local_path into one of its two
Path(...).lstrip('/') calls, each of which raises AttributeError, so the function never
returns a path. -/
theorem generate_local_path_raises (md5hex : String → String) (cfg : Cfg) (url : String)
    (h : url ≠ "") : generate_local_path md5hex cfg url = Except.error PyErr.attributeError := by
  simp only [generate_local_path, if_neg h, PyPath.lstrip]
  split
  · rfl
  · rfl

/-- Helper: the stylesheet registration loop only touches the queue and the mapping,
never the processed set or the fetch trace. -/
theorem registerNewUrls_fields (md5hex : String → String) (cfg : Cfg) :
    ∀ (l : List String) (st : DlState),
      (registerNewUrls md5hex cfg l st).1.processed_urls = st.processed_urls ∧
      (registerNewUrls md5hex cfg l st).1.attempts = st.attempts := by
  intro l
  induction l with
  | nil => intro st; exact ⟨rfl, rfl⟩
  | cons u rest ih =>
    intro st
    unfold registerNewUrls
    by_cases h1 : st.processed_urls.contains u = true
    · simp only [if_pos h1]
      exact ih st
    · simp only [if_neg h1]
      by_cases h2 : (dictGet st.assets_to_download u).isSome = true
      · simp only [if_pos h2]
        exact ih _
      · simp only [if_neg h2]
        cases hg : generate_local_path md5hex cfg u with
        | error e => simp only [hg]; exact ⟨trivial, trivial⟩
        | ok lp => simp only [hg]; exact ih _

/-- Invariant of the download loop: the requests.get calls issued so far are pairwise
distinct, and each issued url was first put into the processed guard set. -/
def attemptsGuarded (st : DlState) : Prop :=
  st.attempts.Nodup ∧ ∀ u ∈ st.attempts, u ∈ st.processed_urls

/-- Helper: the registration loop preserves the fetch-trace invariant. -/
theorem registerNewUrls_guarded (md5hex : String → String) (cfg : Cfg) (l : List String)
    (st : DlState) (h : attemptsGuarded st) :
    attemptsGuarded (registerNewUrls md5hex cfg l st).1 := by
  have hf := registerNewUrls_fields md5hex cfg l st
  constructor
  · rw [hf.2]
    exact h.1
  · intro u hu
    rw [hf.2] at hu
    rw [hf.1]
    exact h.2 u hu

/-- Helper: both outcomes of the registration step keep the fetch-trace invariant. -/
theorem dlRegister_guarded (md5hex : String → String) (cfg : Cfg) (l : List String)
    (st : DlState) (h : attemptsGuarded st) :
    (match registerNewUrls md5hex cfg l st with
     | (st2, some _) => attemptsGuarded st2
     | (st2, none) => attemptsGuarded st2) := by
  have hreg := registerNewUrls_guarded md5hex cfg l st h
  rcases hrr : registerNewUrls md5hex cfg l st with ⟨st5, oe⟩
  rw [hrr] at hreg
  cases oe
  · exact hreg
  · exact hreg

/-- Helper: the fetch part of one iteration keeps the fetch-trace invariant: the one
request it issues is for a url that was never attempted and is marked processed. -/
theorem dlFetchPart_guarded (md5hex : String → String) (cfg : Cfg)
    (fetch : String → FetchOutcome) (cssUrls : String → List String)
    (u local_path : String) (st : DlState) (h : attemptsGuarded st)
    (hua : u ∉ st.attempts) (hup : u ∈ st.processed_urls) :
    (match dlFetchPart md5hex cfg fetch cssUrls u local_path st with
     | Sum.inl st2 => attemptsGuarded st2
     | Sum.inr out => attemptsGuarded out.state) := by
  have h3 : attemptsGuarded { st with attempts := st.attempts ++ [u] } := by
    constructor
    · refine List.nodup_append.mpr ⟨h.1, List.nodup_singleton u, ?_⟩
      intro x hx hxu
      rw [List.mem_singleton] at hxu
      subst hxu
      exact hua hx
    · intro v hv
      rcases List.mem_append.mp hv with h4 | h4
      · exact h.2 v h4
      · rw [List.mem_singleton] at h4
        subst h4
        exact hup
  unfold dlFetchPart
  cases hf : fetch u with
  | timeout => exact h3
  | connError => exact h3
  | resp r =>
    by_cases hs : 400 ≤ r.status
    · simp only [if_pos hs]
      exact h3
    · simp only [if_neg hs]
      by_cases hcss : (pyInStr "css" r.content_type || pyEndswith local_path ".css") = true
      · simp only [if_pos hcss]
        have hx := dlRegister_guarded md5hex cfg
          (extract_new_urls_from_css cssUrls r.body u)
          { st with attempts := st.attempts ++ [u],
                    written := st.written ++ [(local_path, r.body)] } h3
        rcases hrr : registerNewUrls md5hex cfg (extract_new_urls_from_css cssUrls r.body u)
            { st with attempts := st.attempts ++ [u],
                      written := st.written ++ [(local_path, r.body)] } with ⟨st5, oe⟩
        rw [hrr] at hx
        cases oe
        · exact hx
        · exact hx
      · simp only [if_neg hcss]
        exact h3

/-- Helper: one full iteration of the download loop keeps the fetch-trace invariant. -/
theorem dlIter_guarded (md5hex : String → String) (cfg : Cfg)
    (fetch : String → FetchOutcome) (cssUrls : String → List String)
    (u : String) (st : DlState) (h : attemptsGuarded st) :
    (match dlIter md5hex cfg fetch cssUrls u st with
     | Sum.inl st2 => attemptsGuarded st2
     | Sum.inr out => attemptsGuarded out.state) := by
  unfold dlIter
  by_cases hc : st.processed_urls.contains u = true
  · simp only [if_pos hc]
    exact h
  · simp only [if_neg hc]
    have hmem : u ∉ st.processed_urls := by simpa using hc
    have h2 : attemptsGuarded { st with processed_urls := st.processed_urls ++ [u] } := by
      refine ⟨h.1, ?_⟩
      intro v hv
      exact List.mem_append_left _ (h.2 v hv)
    have hattempts : u ∉ st.attempts := fun hx => hmem (h.2 u hx)
    cases hd : dictGet st.assets_to_download u with
    | some lp =>
      simp only [hd]
      exact dlFetchPart_guarded md5hex cfg fetch cssUrls u lp _ h2 hattempts
        (List.mem_append_right _ (List.mem_singleton.mpr rfl))
    | none =>
      simp only [hd]
      cases hg : generate_local_path md5hex cfg u with
      | error e =>
        simp only [hg]
        exact h2
      | ok lp =>
        simp only [hg]
        exact dlFetchPart_guarded md5hex cfg fetch cssUrls u lp _ h2 hattempts
          (List.mem_append_right _ (List.mem_singleton.mpr rfl))

/-- Helper: the download loop keeps the fetch-trace invariant for any fuel, from any
state satisfying it, whatever the HTTP and cssutils oracles do. -/
theorem dl_guarded (md5hex : String → String) (cfg : Cfg) (fetch : String → FetchOutcome)
    (cssUrls : String → List String) :
    ∀ (fuel : Nat) (st : DlState), attemptsGuarded st →
      attemptsGuarded (download_assets_recursively md5hex cfg fetch cssUrls fuel st).state := by
  intro fuel
  induction fuel with
  | zero => intro st h; exact h
  | succ n ih =>
    intro st h
    rw [download_assets_recursively]
    cases hq : st.download_queue with
    | nil => exact h
    | cons u q =>
      have hit := dlIter_guarded md5hex cfg fetch cssUrls u { st with download_queue := q } h
      rcases hi : dlIter md5hex cfg fetch cssUrls u { st with download_queue := q } with st2 | out
      · rw [hi] at hit
        simp only [hi]
        exact ih st2 hit
      · rw [hi] at hit
        simp only [hi]
        exact hit

/-- Helper: one anchor-handling step only enqueues urls passing the startswith test. -/
theorem scanStep_enqueued (base_url : String) (st : CrawlState) (href : String)
    (h : ∀ v ∈ st.enqueued, pyStartswith v base_url = true) :
    ∀ v ∈ (scanStep base_url st href).enqueued, pyStartswith v base_url = true := by
  unfold scanStep
  by_cases h1 : (pyStartswith href "mailto:" || pyStartswith href "tel:"
      || pyStartswith href "#") = true
  · simp only [if_pos h1]
    exact h
  · simp only [if_neg h1]
    by_cases h2 : (pyStartswith (urljoin base_url href) base_url
        && !st.visited.contains (urljoin base_url href)
        && !st.to_visit.contains (urljoin base_url href)) = true
    · simp only [if_pos h2]
      intro v hv
      rcases List.mem_append.mp hv with h3 | h3
      · exact h v h3
      · rw [List.mem_singleton] at h3
        subst h3
        have h2x := h2
        simp only [Bool.and_eq_true] at h2x
        exact h2x.1.1
    · simp only [if_neg h2]
      exact h

/-- Helper: the whole anchor scan of a page only enqueues urls passing the startswith
test. -/
theorem scanLinks_enqueued (base_url : String) :
    ∀ (hrefs : List String) (st : CrawlState),
      (∀ v ∈ st.enqueued, pyStartswith v base_url = true) →
      ∀ v ∈ (scanLinks base_url st hrefs).enqueued, pyStartswith v base_url = true := by
  intro hrefs
  induction hrefs with
  | nil => intro st h; exact h
  | cons a rest ih =>
    intro st h
    exact ih (scanStep base_url st a) (scanStep_enqueued base_url st a h)

/-- Helper: the frontier loop only enqueues urls passing the startswith test, for any
fuel and oracles. -/
theorem extract_pages_enqueued (fetch : String → Option String) (links : String → List String)
    (base_url : String) :
    ∀ (fuel : Nat) (st : CrawlState),
      (∀ v ∈ st.enqueued, pyStartswith v base_url = true) →
      ∀ v ∈ (extract_pages fetch links base_url fuel st).enqueued,
        pyStartswith v base_url = true := by
  intro fuel
  induction fuel with
  | zero => intro st h; exact h
  | succ n ih =>
    intro st h
    rw [extract_pages]
    cases hq : st.to_visit with
    | nil => exact h
    | cons u rest =>
      by_cases hv : st.visited.contains u = true
      · simp only [if_pos hv]
        exact ih _ h
      · simp only [if_neg hv]
        cases hf : fetch u with
        | none =>
          simp only [hf]
          exact ih _ h
        | some html =>
          simp only [hf]
          exact ih _ (scanLinks_enqueued base_url (links html) _ h)

/-- Helper: every url the css extraction loop returns comes from a reference whose
stripped value is non-empty and does not start with data:. -/
theorem extractCssLoop_mem (base_url : String) :
    ∀ (l : List String) (v : String), v ∈ extractCssLoop base_url l →
      ∃ u, u ∈ l ∧ cssStrip u ≠ "" ∧ pyStartswith (cssStrip u) "data:" = false ∧
        v = urljoin base_url (cssStrip u) := by
  intro l
  induction l with
  | nil => intro v hv; simp [extractCssLoop] at hv
  | cons u rest ih =>
    intro v hv
    unfold extractCssLoop at hv
    by_cases h1 : (cssStrip u == "" || pyStartswith (cssStrip u) "data:") = true
    · rw [if_pos h1] at hv
      rcases ih v hv with ⟨w, hw, hrest⟩
      exact ⟨w, List.mem_cons_of_mem _ hw, hrest⟩
    · rw [if_neg h1] at hv
      have h1a : cssStrip u ≠ "" ∧ pyStartswith (cssStrip u) "data:" = false := by
        simp only [Bool.or_eq_true, beq_iff_eq] at h1
        push_neg at h1
        exact ⟨h1.1, by simpa using h1.2⟩
      by_cases h2 : urljoin base_url (cssStrip u) = base_url
      · rw [if_pos h2] at hv
        rcases ih v hv with ⟨w, hw, hrest⟩
        exact ⟨w, List.mem_cons_of_mem _ hw, hrest⟩
      · rw [if_neg h2] at hv
        rcases List.mem_cons.mp hv with h3 | h3
        · exact ⟨u, List.mem_cons_self u rest, h1a.1, h1a.2, h3⟩
        · rcases ih v h3 with ⟨w, hw, hrest⟩
          exact ⟨w, List.mem_cons_of_mem _ hw, hrest⟩

/-- Helper: the css replacement loop never gets past its first _generate_local_path
call: it either skips every entry or aborts on the first mapped one, so the replacement
dict stays empty and the mapping untouched. The hypothesis excludes resolutions to the
empty string, the only argument the mapper returns on. -/
theorem cssReplaceLoop_stuck (md5hex : String → String) (cfg : Cfg) (base_url : String) :
    ∀ (l : List String) (repl : List (String × String)) (m : List (String × MapEntry)),
      (∀ u ∈ l, urljoin base_url (cssStrip u) ≠ "") →
      (cssReplaceLoop md5hex cfg base_url l repl m).1 = repl ∧
      (cssReplaceLoop md5hex cfg base_url l repl m).2.1 = m := by
  intro l
  induction l with
  | nil => intro repl m _; exact ⟨rfl, rfl⟩
  | cons u rest ih =>
    intro repl m h
    unfold cssReplaceLoop
    by_cases h1 : (cssStrip u == "" || pyStartswith (cssStrip u) "data:") = true
    · simp only [if_pos h1]
      exact ih repl m (fun v hv => h v (List.mem_cons_of_mem _ hv))
    · simp only [if_neg h1]
      by_cases h2 : urljoin base_url (cssStrip u) = base_url
      · simp only [if_pos h2]
        exact ih repl m (fun v hv => h v (List.mem_cons_of_mem _ hv))
      · simp only [if_neg h2]
        rw [generate_local_path_raises md5hex cfg _ (h u (List.mem_cons_self u rest))]
        exact ⟨rfl, rfl⟩

/-- C1: the Path Mapper claim fails on the code as written: at the repository's own test
input https://example.com/image.png (tests/test_content_processor.py asserts the result
starts with assets/), _generate_local_path raises AttributeError from
Path(...).lstrip('/') instead of returning any local path at all. -/
theorem c1_path_mapper_crash :
    generate_local_path idHash cfgEx "https://example.com/image.png"
      = Except.error PyErr.attributeError := by rfl

/-- C2 counterexample: a malformed url with no host does not map to any
assets/no-hostname path and the call does not return normally: _generate_local_path
raises AttributeError on it. -/
theorem c2_counterexample :
    generate_local_path idHash cfgEx "foo/bar" = Except.error PyErr.attributeError := by rfl

/-- C2 amended: the mapper never returns normally on a non-empty url, well-formed or
not: every such url reaches a Path(...).lstrip('/') call and raises AttributeError;
only the empty url returns (the empty string). No assets/no-hostname fallback exists
anywhere in the code. -/
theorem c2_amended :
    (∀ (md5hex : String → String) (cfg : Cfg) (url : String), url ≠ "" →
      generate_local_path md5hex cfg url = Except.error PyErr.attributeError) ∧
    (∀ (md5hex : String → String) (cfg : Cfg),
      generate_local_path md5hex cfg "" = Except.ok "") :=
  ⟨fun md5hex cfg url h => generate_local_path_raises md5hex cfg url h, fun _ _ => rfl⟩

/-- C2 witness: the amended theorem applied at a concrete host-less url. -/
theorem c2_amended_witness :
    ("just-a-path" : String) ≠ "" ∧
    generate_local_path idHash cfgEx "just-a-path" = Except.error PyErr.attributeError :=
  ⟨by decide, c2_amended.1 idHash cfgEx "just-a-path" (by decide)⟩

/-- C3 counterexample: in the recursive-discovery scenario the asset mapping never
receives an entry for F: registering the discovered F calls _generate_local_path, which
raises AttributeError and aborts the loop. -/
theorem c3_counterexample :
    dictGet c3run.state.assets_to_download urlF = none ∧
    c3run.err = some PyErr.attributeError := ⟨rfl, rfl⟩

/-- C3 amended: given the mapping containing S that the claim presupposes, the loop
fetches S once and writes the raw fetched stylesheet bytes with the font.woff2 reference
still in place (the rewriting pass _process_asset is never invoked by the pipeline);
registering the newly discovered F raises AttributeError, so the loop aborts with F
enqueued but absent from the mapping. -/
theorem c3_amended :
    dictGet c3run.state.assets_to_download urlS = some "assets/style.css" ∧
    c3run.state.attempts = [urlS] ∧
    c3run.state.written = [("assets/style.css", cssBodyEx)] ∧
    pyInStr "font.woff2" cssBodyEx = true ∧
    c3run.state.download_queue.contains urlF = true ∧
    dictGet c3run.state.assets_to_download urlF = none ∧
    c3run.err = some PyErr.attributeError :=
  ⟨rfl, rfl, rfl, rfl, rfl, rfl, rfl⟩

/-- C4 counterexample: the frontier enqueues by the string test
abs_url.startswith(base_url), not by host equality: from a page of base
https://site.example, the different-host url https://site.examplesneaky.com/x is
enqueued, while https://other.example/x is not. -/
theorem c4_counterexample :
    c4run.enqueued.contains sneakyUrl = true ∧
    (urlparse sneakyUrl).netloc ≠ (urlparse baseEx).netloc ∧
    c4run.enqueued.contains otherUrl = false :=
  ⟨rfl, by decide, rfl⟩

/-- C4 amended: every url the frontier loop ever enqueues passes the string test
startswith(base_url); the cross-origin example https://other.example/x is indeed never
enqueued, but the test admits urls of different hosts whose string extends the base
string. -/
theorem c4_amended (fetch : String → Option String) (links : String → List String)
    (base_url : String) (fuel : Nat) (q : List String) (u : String)
    (h : u ∈ (extract_pages fetch links base_url fuel ⟨q, [], [], []⟩).enqueued) :
    pyStartswith u base_url = true :=
  extract_pages_enqueued fetch links base_url fuel ⟨q, [], [], []⟩
    (fun v hv => absurd hv (List.not_mem_nil v)) u h

/-- C4 witness: the amended theorem applied to the enqueued different-host url of the
crawl scenario. -/
theorem c4_amended_witness :
    sneakyUrl ∈ (extract_pages c4fetch c4links baseEx 5 ⟨[baseEx], [], [], []⟩).enqueued ∧
    pyStartswith sneakyUrl baseEx = true :=
  ⟨by decide, c4_amended c4fetch c4links baseEx 5 [baseEx] sneakyUrl (by decide)⟩

/-- C5: at-most-once fetch: from any initial worklist and mapping, over any HTTP and
cssutils behaviour and any fuel, the download loop never issues two requests.get calls
for the same url: every url is added to the processed guard set before its fetch and
skipped forever after. -/
theorem c5_at_most_once (md5hex : String → String) (cfg : Cfg)
    (fetch : String → FetchOutcome) (cssUrls : String → List String) (fuel : Nat)
    (q : List String) (assets : List (String × String)) :
    ((download_assets_recursively md5hex cfg fetch cssUrls fuel
        ⟨q, [], assets, [], []⟩).state.attempts).Nodup :=
  (dl_guarded md5hex cfg fetch cssUrls fuel ⟨q, [], assets, [], []⟩
    ⟨List.nodup_nil, fun v hv => absurd hv (List.not_mem_nil v)⟩).1

/-- C6 counterexample: the fetch layer performs no retry: for url A whose fetch always
times out (a transient failure), the run issues exactly one requests.get for A, merely
skipping it and continuing. -/
theorem c6_counterexample :
    List.count urlA c6run.state.attempts = 1 ∧ c6run.err = none := ⟨by decide, rfl⟩

/-- C6 amended: each url is attempted at most once per run (there is no retry logic:
one requests.get with a fixed timeout), and every requests.RequestException, transient
or permanent alike, is handled as a per-url skip: in the scenario the timed-out A is
skipped while B is still fetched and written, and the loop ends cleanly. -/
theorem c6_amended :
    (∀ (md5hex : String → String) (cfg : Cfg) (fetch : String → FetchOutcome)
        (cssUrls : String → List String) (fuel : Nat) (q : List String)
        (assets : List (String × String)) (u : String),
      List.count u ((download_assets_recursively md5hex cfg fetch cssUrls fuel
          ⟨q, [], assets, [], []⟩).state.attempts) ≤ 1) ∧
    c6run.state.attempts = [urlA, urlB] ∧
    c6run.err = none ∧
    c6run.state.written = [("assets/b.png", "PNGDATA")] :=
  ⟨fun md5hex cfg fetch cssUrls fuel q assets u =>
      List.nodup_iff_count_le_one.mp
        ((dl_guarded md5hex cfg fetch cssUrls fuel ⟨q, [], assets, [], []⟩
          ⟨List.nodup_nil, fun v hv => absurd hv (List.not_mem_nil v)⟩).1) u,
    rfl, rfl, rfl⟩

/-- C7: form rewrite gating: with no handler configured (None, or the Python-falsy
empty string) every form is emitted unchanged; with a handler configured every form
gets exactly the handler as action and post as method, other attributes untouched. -/
theorem c7_form_rewrite_gating :
    (∀ forms : List FormTag, update_forms_in_page none forms = forms) ∧
    (∀ forms : List FormTag, update_forms_in_page (some "") forms = forms) ∧
    (∀ (h : String) (forms : List FormTag), h ≠ "" →
      update_forms_in_page (some h) forms
        = forms.map (fun f => { f with action := some h, method := some "post" })) := by
  refine ⟨fun _ => rfl, fun _ => rfl, fun h forms hne => ?_⟩
  simp [update_forms_in_page, hne]

/-- C7 witness: the gating theorem applied to the example form and handler of the spec. -/
theorem c7_witness :
    ("https://h.example/submit" : String) ≠ "" ∧
    update_forms_in_page (some "https://h.example/submit")
        [⟨some "https://tilda.example/formshandler", some "get", []⟩]
      = [⟨some "https://h.example/submit", some "post", []⟩] :=
  ⟨by decide,
   (c7_form_rewrite_gating.2.2 "https://h.example/submit"
      [⟨some "https://tilda.example/formshandler", some "get", []⟩] (by decide)).trans rfl⟩

/-- C8: the query-split claim fails on the code: processing a page whose img src carries
a query string aborts with AttributeError from _generate_local_path before any attribute
is rewritten or any mapping entry stored; the query-reattach logic of lines 90-103 is
unreachable. -/
theorem c8_query_split_crash :
    process_images_in_page idHash cfgEx [some "https://site.example/a.png?v=1"] []
      = Except.error PyErr.attributeError := by rfl

/-- C9 counterexample: the HTML image scan has no data: check: a page whose only img
src is a data: uri is not skipped; the src is passed to the Path Mapper and page
processing aborts with AttributeError instead of leaving the reference alone. -/
theorem c9_counterexample :
    process_images_in_page idHash cfgEx [some "data:image/png;base64,AAA"] []
      = Except.error PyErr.attributeError := by rfl

/-- C9 amended: only the stylesheet-mode scan skips data: uris: every url the css
extractor returns arises from a reference whose stripped value is non-empty and does
not start with data:; the HTML img scan instead feeds data: uris to the Path Mapper,
which raises AttributeError whatever the current mapping is. -/
theorem c9_amended :
    (∀ (cssUrls : String → List String) (css base v : String),
      v ∈ extract_new_urls_from_css cssUrls css base →
      ∃ u, u ∈ cssUrls css ∧ cssStrip u ≠ "" ∧
        pyStartswith (cssStrip u) "data:" = false ∧ v = urljoin base (cssStrip u)) ∧
    (∀ m : List (String × MapEntry),
      process_images_in_page idHash cfgEx [some "data:image/png;base64,AAA"] m
        = Except.error PyErr.attributeError) := by
  constructor
  · intro cssUrls css base v hv
    exact extractCssLoop_mem base (cssUrls css) v hv
  · intro m
    rfl

/-- C9 witness: the amended theorem applied to the data-uri css scenario, where the
returned font url arises from the non-data reference. -/
theorem c9_amended_witness :
    urlF ∈ extract_new_urls_from_css c9cssOracle "anycss" urlS ∧
    (∃ u, u ∈ c9cssOracle "anycss" ∧ cssStrip u ≠ "" ∧
      pyStartswith (cssStrip u) "data:" = false ∧ urlF = urljoin urlS (cssStrip u)) :=
  ⟨by decide, c9_amended.1 c9cssOracle "anycss" urlS urlF (by decide)⟩

/-- C10: the claimed plain substring replacement never runs: the first collected url
reaches _generate_local_path, which raises inside the try block, and the except handler
returns the stylesheet text unchanged with the mapping untouched; the replacement fold
of lines 240-243 only ever runs with an empty replacement dict. The hypothesis rules
out references resolving to the empty string, the only argument the mapper returns on. -/
theorem c10_replacement_never_runs (md5hex : String → String) (cfg : Cfg)
    (cssUrls : String → List String) (css base : String) (m : List (String × MapEntry))
    (h : ∀ u ∈ cssUrls css, urljoin base (cssStrip u) ≠ "") :
    parse_and_replace_css_urls md5hex cfg cssUrls css base m = (css, m) := by
  unfold parse_and_replace_css_urls
  have hs := cssReplaceLoop_stuck md5hex cfg base (cssUrls css) [] m h
  rcases hloop : cssReplaceLoop md5hex cfg base (cssUrls css) [] m with ⟨repl, m2, oe⟩
  rw [hloop] at hs
  have h1 : repl = [] := hs.1
  have h2 : m2 = m := hs.2
  subst h1
  subst h2
  cases oe <;> rfl

/-- C10 witness: the theorem applied to a concrete stylesheet whose single url(...)
reference is left untouched in the returned text. -/
theorem c10_witness :
    (∀ u ∈ c10oracle c10css, urljoin urlS (cssStrip u) ≠ "") ∧
    parse_and_replace_css_urls idHash cfgEx c10oracle c10css urlS [] = (c10css, []) :=
  ⟨by decide, c10_replacement_never_runs idHash cfgEx c10oracle c10css urlS [] (by decide)⟩

end TildaMigration
